import Mathlib

/-!
Shallow embedding of `cffi_src/factory.go` from the go-tls-client repository.

The factory keeps a process-wide registry of TLS clients keyed by session id,
resolves TLS/HTTP2 fingerprint profiles from either a named identifier or a
custom JA3-based definition, and translates logical requests and responses to
and from the wire types of an external HTTP client library.

External collaborators (the tls-client library, the JA3 parser, the uuid
generator, the net layer) are modelled as an explicit `Env` of functions, and
Go maps as association lists with Go-map update semantics.
-/

namespace TlsClientCffi

/-- Go map modelled as an association list: lookup of the first binding of a
key, mirroring `m[k]` with the comma-ok idiom (`none` is "key absent"). -/
def lookupAssoc {κ α : Type} [DecidableEq κ] (m : List (κ × α)) (k : κ) : Option α :=
  match m with
  | [] => none
  | (k₀, v₀) :: rest => if k₀ = k then some v₀ else lookupAssoc rest k

/-- Go map assignment `m[k] = v`: replace the binding of `k` when present,
append a new binding otherwise. -/
def insertAssoc {κ α : Type} [DecidableEq κ] (m : List (κ × α)) (k : κ) (v : α) :
    List (κ × α) :=
  match m with
  | [] => [(k, v)]
  | (k₀, v₀) :: rest =>
    if k₀ = k then (k, v) :: rest else (k₀, v₀) :: insertAssoc rest k v

/-- Modelled from the spec: `http2.PriorityParam` of the external HTTP/2
library (stream dependency, exclusivity flag, weight). -/
structure PriorityParam where
  streamDep : Nat
  exclusive : Bool
  weight : Nat
deriving DecidableEq, Repr

/-- Modelled from the spec: `http2.Priority`, one priority frame (stream id
plus its parameters). -/
structure Priority where
  streamID : Nat
  priorityParam : PriorityParam
deriving DecidableEq, Repr

/-- Modelled from the spec: the custom fingerprint specification
(`CustomTlsClient` of the repository's types, declared outside factory.go):
a JA3 handshake string, HTTP/2 settings (numeric id to value), their
application order, pseudo-header order, connection flow-control window,
and priority frames. The Go settings map is carried as an association list. -/
structure CustomTlsClient where
  ja3String : String
  h2Settings : List (Nat × Nat)
  h2SettingsOrder : List Nat
  pseudoHeaderOrder : List String
  connectionFlow : Nat
  priorityFrames : List Priority
deriving DecidableEq, Repr

/-- Modelled from the spec: `RequestInput` (declared outside factory.go):
all fields factory.go reads. Optional Go pointer fields are `Option`,
the headers map is an association list. -/
structure RequestInput where
  sessionId : Option String
  tlsClientIdentifier : String
  customTlsClient : Option CustomTlsClient
  proxyUrl : Option String
  followRedirects : Bool
  timeoutSeconds : Nat
  insecureSkipVerify : Bool
  requestMethod : String
  requestUrl : String
  requestBody : Option String
  headers : List (String × String)
  headerOrder : List String
deriving DecidableEq, Repr

/-- Modelled: `tls.ClientHelloID` of the external uTLS library. The opaque
`SpecFactory` produced by the JA3 parser is abstracted to a numeric id;
`none` stands for the Go nil. -/
structure ClientHelloID where
  client : String
  version : String
  seed : Option Nat
  specFactory : Option Nat
deriving DecidableEq, Repr

/-- Modelled: `tls_client.ClientProfile`, the resolved fingerprint
descriptor consumed by the external client library. -/
structure ClientProfile where
  clientHelloId : ClientHelloID
  h2Settings : List (Nat × Nat)
  h2SettingsOrder : List Nat
  pseudoHeaderOrder : List String
  connectionFlow : Nat
  priorityFrames : List Priority
deriving DecidableEq, Repr

/-- Modelled: `tls_client.NewClientProfile`, the profile constructor. -/
def NewClientProfile (clientHelloId : ClientHelloID) (h2Settings : List (Nat × Nat))
    (h2SettingsOrder : List Nat) (pseudoHeaderOrder : List String)
    (connectionFlow : Nat) (priorityFrames : List Priority) : ClientProfile :=
  ⟨clientHelloId, h2Settings, h2SettingsOrder, pseudoHeaderOrder, connectionFlow, priorityFrames⟩

/-- Zero value of the Go struct `tls_client.ClientProfile`, produced by
`var clientProfile tls_client.ClientProfile` in getTlsClient. -/
def zeroClientProfile : ClientProfile :=
  ⟨⟨"", "", none, none⟩, [], [], [], 0, []⟩

/-- Modelled: a live client handle of the external library
(`tls_client.HttpClient`). `clientId` is the identity of the allocated Go
object (two handles are the same object exactly when their `clientId`s
agree); `profile` is fixed at construction; `proxy` and `followRedirect`
are the mutable attributes reachable through GetProxy/SetProxy and
GetFollowRedirect/SetFollowRedirect. -/
structure Client where
  clientId : Nat
  profile : ClientProfile
  proxy : String
  followRedirect : Bool
  timeoutSeconds : Nat
  insecureSkipVerify : Bool
deriving DecidableEq, Repr

/-- Option set assembled by getTlsClient and passed to the external
`tls_client.NewHttpClient` (timeout, profile, redirect policy,
TLS-verify skip, and proxy when one was supplied non-empty). -/
structure ClientOptions where
  timeoutSeconds : Nat
  profile : ClientProfile
  followRedirects : Bool
  insecureSkipVerify : Bool
  proxyUrl : Option String
deriving DecidableEq, Repr

/-- Modelled: the behaviour of the external collaborators consumed by
factory.go, per the library contract: the JA3 parser
(`tls_client.GetSpecFactorFromJa3String`, fails on malformed JA3), the
named-fingerprint catalog (`tls_client.MappedTLSClients`) with its default
profile and default timeout, proxy acceptance of a live client
(`SetProxy` fails exactly on rejected proxy urls), client construction
(`tls_client.NewHttpClient` returns a handle or a construction error),
and `http.NewRequest` failure. -/
structure Env where
  ja3Parse : String → Except String Nat
  mappedTLSClients : List (String × ClientProfile)
  defaultClientProfile : ClientProfile
  defaultTimeoutSeconds : Nat
  proxyValid : String → Bool
  buildReject : ClientOptions → Option String
  newRequestErr : String → String → Option String

/-- Process-wide mutable state of factory.go: the session registry
`var clients = make(map[string]tls_client.HttpClient)` (a stored `none`
is a nil handle written into the map), plus two bookkeeping counters of
the model: `nextClientId` counts invocations of the external client
constructor (it is the id handed to the next constructed object), and
`uuidCounter` drives the fresh-uuid generator. -/
structure FactoryState where
  clients : List (String × Option Client)
  nextClientId : Nat
  uuidCounter : Nat
deriving DecidableEq, Repr

/-- Modelled: `uuid.New().String()` of the external uuid library,
abstracted to a deterministic generator over the per-process counter.
It keeps the two properties factory.go relies on: a generated id is never
the empty string, and distinct draws are distinct strings. -/
def genUuid (n : Nat) : String :=
  String.mk (List.replicate (n + 1) 'u')

/-- Modelled from the spec: `TLSClientError`, the single tagged error value
(`NewTLSClientError`, declared outside factory.go) wrapping an underlying
cause; it carries only the human-readable message. -/
structure TLSClientError where
  msg : String
deriving DecidableEq, Repr

/-- Modelled from the spec: `NewTLSClientError`, the error constructor. -/
def NewTLSClientError (msg : String) : TLSClientError :=
  ⟨msg⟩

/-- Error message of factory.go line 28 (both identifier and custom set). -/
def bothProvidedMsg : String :=
  "can not built client out of client identifier and custom tls client information. Please provide only one of them"

/-- Error message of factory.go line 33 (neither identifier nor custom set). -/
def neitherProvidedMsg : String :=
  "can not built client without client identifier and without custom tls client information. Please provide at least one of them"

/-- Error message of factory.go line 52 (missing method or url). -/
def noMethodUrlMsg : String :=
  "no request url or request method provided"

/-- Error message of factory.go line 60 (body without Content-Type). -/
def noContentTypeMsg : String :=
  "if you are using a request post body please specify a Content-Type Header"

/-- factory.go lines 228-246, `handleModification`: on an existing handle,
apply a supplied differing proxy through SetProxy (early error return when
the transport rejects it), then flip a differing follow-redirects flag;
returns the handle and whether anything changed. -/
def handleModification (env : Env) (client : Client) (proxyUrl : Option String)
    (followRedirects : Bool) : Except String (Client × Bool) :=
  let proxyStep : Except String (Client × Bool) :=
    match proxyUrl with
    | some p =>
      if client.proxy ≠ p then
        if env.proxyValid p then Except.ok ({ client with proxy := p }, true)
        else Except.error "failed to change proxy url of client"
      else Except.ok (client, false)
    | none => Except.ok (client, false)
  match proxyStep with
  | Except.error e => Except.error e
  | Except.ok (client₁, changed₁) =>
    if client₁.followRedirect ≠ followRedirects then
      Except.ok ({ client₁ with followRedirect := followRedirects }, true)
    else Except.ok (client₁, changed₁)

/-- factory.go lines 248-256, `cookiesToMap`: fold the cookie list into a
map keyed by cookie name; the value is the cookie's full serialized string
(`c.String()` of the external http library, carried as the `str` field). -/
structure Cookie where
  name : String
  str : String
deriving DecidableEq, Repr

/-- factory.go lines 248-256, `cookiesToMap` itself. -/
def cookiesToMap (cookies : List Cookie) : List (String × String) :=
  cookies.foldl (fun ret c => insertAssoc ret c.name c.str) []

/-- factory.go lines 218-226, `getTlsClientProfile`: catalog lookup of a
named identifier, falling back to the default profile; never fails. -/
def getTlsClientProfile (env : Env) (tlsClientIdentifier : String) : ClientProfile :=
  match lookupAssoc env.mappedTLSClients tlsClientIdentifier with
  | none => env.defaultClientProfile
  | some tlsClientProfile => tlsClientProfile

/-- factory.go lines 176-216, `getCustomTlsClientProfile`: parse the JA3
string (propagating the parser's error), convert the settings map keys to
setting ids, copy the settings order, pseudo-header order and priority
frames with Go `append` loops (modelled as left folds), and assemble the
synthetic "Custom" ClientHelloID carrying the parsed spec factory. -/
def getCustomTlsClientProfile (env : Env) (customClientDefinition : CustomTlsClient) :
    Except String (ClientHelloID × List (Nat × Nat) × List Nat × List String × Nat × List Priority) :=
  match env.ja3Parse customClientDefinition.ja3String with
  | Except.error err => Except.error err
  | Except.ok specFactory =>
    let h2Settings :=
      customClientDefinition.h2Settings.foldl
        (fun m kv => insertAssoc m kv.1 kv.2) ([] : List (Nat × Nat))
    let h2SettingsOrder :=
      customClientDefinition.h2SettingsOrder.foldl (fun l order => l ++ [order]) []
    let pseudoHeaderOrder := customClientDefinition.pseudoHeaderOrder
    let connectionFlow := customClientDefinition.connectionFlow
    let priorityFrames :=
      customClientDefinition.priorityFrames.foldl
        (fun l priority =>
          l ++ [Priority.mk priority.streamID
            (PriorityParam.mk priority.priorityParam.streamDep
              priority.priorityParam.exclusive priority.priorityParam.weight)]) []
    let clientHelloId : ClientHelloID :=
      { client := "Custom", version := "1", seed := none, specFactory := some specFactory }
    Except.ok (clientHelloId, h2Settings, h2SettingsOrder, pseudoHeaderOrder, connectionFlow, priorityFrames)

/-- Modelled: `tls_client.NewHttpClient` per the library contract: it
yields a fresh handle configured from the options, or a construction error
together with a nil handle (`none`). `cid` is the identity given to the
allocated object. -/
def newHttpClient (env : Env) (opts : ClientOptions) (cid : Nat) :
    Option Client × Option String :=
  match env.buildReject opts with
  | some e => (none, some e)
  | none =>
    (some { clientId := cid, profile := opts.profile,
            proxy := opts.proxyUrl.getD "",
            followRedirect := opts.followRedirects,
            timeoutSeconds := opts.timeoutSeconds,
            insecureSkipVerify := opts.insecureSkipVerify }, none)

/-- factory.go lines 106-174, `getTlsClient`: under the registry lock,
fetch an existing entry and apply `handleModification` (storing the handle
back when changed), or resolve a profile (custom first, identifier
overriding), assemble options (default timeout when zero, redirect policy,
TLS-verify skip, non-empty proxy) and construct a new client, storing it
in the registry before the construction error is inspected — exactly as
the Go writes `clients[sessionId] = tlsClient` ahead of returning `err`.
Reaching a stored nil handle would make the Go dereference a nil
interface; it is modelled as an error result. -/
def getTlsClient (env : Env) (requestInput : RequestInput) (sessionId : String)
    (st : FactoryState) : (Option Client × Option String) × FactoryState :=
  let proxyUrl := requestInput.proxyUrl
  match lookupAssoc st.clients sessionId with
  | some (some client) =>
    match handleModification env client proxyUrl requestInput.followRedirects with
    | Except.error e => ((none, some ("failed to modify existing client: " ++ e)), st)
    | Except.ok (modifiedClient, changed) =>
      let st' :=
        if changed then
          { st with clients := insertAssoc st.clients sessionId (some modifiedClient) }
        else st
      ((some modifiedClient, none), st')
  | some none => ((none, some "nil client handle in registry"), st)
  | none =>
    let profileStep : Except String ClientProfile :=
      match requestInput.customTlsClient with
      | some custom =>
        match getCustomTlsClientProfile env custom with
        | Except.error err =>
          Except.error ("can not build http client out of custom tls client information: " ++ err)
        | Except.ok (clientHelloId, h2Settings, h2SettingsOrder, pseudoHeaderOrder, connectionFlow, priorityFrames) =>
          Except.ok (NewClientProfile clientHelloId h2Settings h2SettingsOrder pseudoHeaderOrder connectionFlow priorityFrames)
      | none => Except.ok zeroClientProfile
    match profileStep with
    | Except.error e => ((none, some e), st)
    | Except.ok customProfile =>
      let clientProfile :=
        if requestInput.tlsClientIdentifier ≠ "" then
          getTlsClientProfile env requestInput.tlsClientIdentifier
        else customProfile
      let timeoutSeconds :=
        if requestInput.timeoutSeconds ≠ 0 then requestInput.timeoutSeconds
        else env.defaultTimeoutSeconds
      let opts : ClientOptions :=
        { timeoutSeconds := timeoutSeconds, profile := clientProfile,
          followRedirects := requestInput.followRedirects,
          insecureSkipVerify := requestInput.insecureSkipVerify,
          proxyUrl :=
            match proxyUrl with
            | some p => if p ≠ "" then some p else none
            | none => none }
      let constructed := newHttpClient env opts st.nextClientId
      let st' :=
        { st with clients := insertAssoc st.clients sessionId constructed.1,
                  nextClientId := st.nextClientId + 1 }
      ((constructed.1, constructed.2), st')

/-- Result triple of `GetTlsClientFromInput`, mirroring the Go return
`(tls_client.HttpClient, string, *TLSClientError)`. -/
structure CallResult where
  client : Option Client
  sessionId : String
  err : Option TLSClientError
deriving DecidableEq, Repr

/-- factory.go lines 19-45, `GetTlsClientFromInput`: always draw a fresh
uuid, keep a supplied non-empty session id, reject both-set and
neither-set identifier/custom inputs before touching the registry, and
otherwise delegate to `getTlsClient`, wrapping its error. -/
def GetTlsClientFromInput (env : Env) (requestInput : RequestInput)
    (st : FactoryState) : CallResult × FactoryState :=
  let newSessionId :=
    match requestInput.sessionId with
    | some s => if s ≠ "" then s else genUuid st.uuidCounter
    | none => genUuid st.uuidCounter
  let st₁ := { st with uuidCounter := st.uuidCounter + 1 }
  if requestInput.tlsClientIdentifier ≠ "" ∧ requestInput.customTlsClient ≠ none then
    ({ client := none, sessionId := newSessionId,
       err := some (NewTLSClientError bothProvidedMsg) }, st₁)
  else if requestInput.tlsClientIdentifier = "" ∧ requestInput.customTlsClient = none then
    ({ client := none, sessionId := newSessionId,
       err := some (NewTLSClientError neitherProvidedMsg) }, st₁)
  else
    let step := getTlsClient env requestInput newSessionId st₁
    match step.1.2 with
    | some e =>
      ({ client := none, sessionId := newSessionId,
         err := some (NewTLSClientError ("failed to build client out of request input: " ++ e)) }, step.2)
    | none =>
      ({ client := step.1.1, sessionId := newSessionId, err := none }, step.2)

/-- The pseudo-header key `http.HeaderOrderKey` of the external fhttp
library, under which the explicit header order is attached. -/
def headerOrderKey : String :=
  "Header-Order:"

/-- Modelled: the outbound `http.Request` as far as factory.go populates
it: method, url, body (absent when the Go passes a nil reader), and the
final header map (each supplied header as a singleton value list, plus
the header-order sequence under `headerOrderKey`). -/
structure WireRequest where
  method : String
  url : String
  body : Option String
  header : List (String × List String)
deriving DecidableEq, Repr

/-- factory.go lines 63-83 common tail: `http.NewRequest` (a construction
error when the net layer rejects method/url) and the header-map assembly. -/
def mkWireRequest (env : Env) (input : RequestInput) (body : Option String) :
    Except TLSClientError WireRequest :=
  match env.newRequestErr input.requestMethod input.requestUrl with
  | some e => Except.error (NewTLSClientError ("failed to create request object: " ++ e))
  | none =>
    let headers :=
      input.headers.foldl (fun h kv => insertAssoc h kv.1 [kv.2])
        ([] : List (String × List String))
    let headers := insertAssoc headers headerOrderKey input.headerOrder
    Except.ok { method := input.requestMethod, url := input.requestUrl,
                body := body, header := headers }

/-- factory.go lines 47-84, `BuildRequest`: reject an empty method or url;
with a non-empty body require one of the exact header keys
`content-type` / `Content-Type` and build the request around the body,
otherwise build it without one. -/
def BuildRequest (env : Env) (input : RequestInput) : Except TLSClientError WireRequest :=
  if input.requestMethod = "" ∨ input.requestUrl = "" then
    Except.error (NewTLSClientError noMethodUrlMsg)
  else
    match input.requestBody with
    | some body =>
      if body ≠ "" then
        if lookupAssoc input.headers "content-type" = none ∧
            lookupAssoc input.headers "Content-Type" = none then
          Except.error (NewTLSClientError noContentTypeMsg)
        else mkWireRequest env input (some body)
      else mkWireRequest env input none
    | none => mkWireRequest env input none

deriving instance DecidableEq for Except

/-- Modelled: the inbound `http.Response` as far as factory.go reads it:
status code, header map, and the outcome of draining the body
(`ioutil.ReadAll`), which either yields the full byte string or fails. -/
structure WireResponse where
  statusCode : Nat
  header : List (String × List String)
  bodyRead : Except String String
deriving DecidableEq, Repr

/-- Modelled from the spec: `Response` (declared outside factory.go):
session id, status, body, headers as received, and the flattened cookie
map. -/
structure Response where
  sessionId : String
  status : Nat
  body : String
  headers : List (String × List String)
  cookies : List (String × String)
deriving DecidableEq, Repr

/-- Zero value of the Go struct `Response`, returned as `Response{}` on
the body-drain error path (nil maps are empty association lists). -/
def zeroResponse : Response :=
  { sessionId := "", status := 0, body := "", headers := [], cookies := [] }

/-- factory.go lines 86-104, `BuildResponse`: drain the body (the close is
effect-free in the model); on a read error return the zero response with
the wrapped error, otherwise populate the response verbatim with the
flattened cookies. The Go pair return `(Response, *TLSClientError)` is
kept as a pair. -/
def BuildResponse (sessionId : String) (resp : WireResponse) (cookies : List Cookie) :
    Response × Option TLSClientError :=
  match resp.bodyRead with
  | Except.error e => (zeroResponse, some (NewTLSClientError e))
  | Except.ok respBody =>
    ({ sessionId := sessionId, status := resp.statusCode, body := respBody,
       headers := resp.header, cookies := cookiesToMap cookies }, none)

/-- Concrete profile used by the sample environment below. -/
def sampleProfile : ClientProfile :=
  ⟨⟨"Chrome", "103", none, none⟩, [(1, 65536)], [1, 3], ["m"], 15663105, []⟩

/-- Concrete custom fingerprint specification used in witnesses; its
settings order is the `[2,4,1]` sequence of the reuse examples. -/
def sampleCustom : CustomTlsClient :=
  ⟨"ja3str", [(1, 65536), (4, 131072)], [2, 4, 1], ["m", "a", "s", "p"], 15663105,
    [⟨3, ⟨0, true, 201⟩⟩]⟩

/-- Concrete external environment: one catalogued identifier, a JA3 parser
rejecting the string "bad", a transport rejecting the proxy "badproxy",
construction and request building always succeeding. -/
def envOk : Env :=
  { ja3Parse := fun s => if s = "bad" then Except.error "invalid ja3" else Except.ok 7,
    mappedTLSClients := [("chrome_103", sampleProfile)],
    defaultClientProfile := ⟨⟨"Def", "1", none, none⟩, [], [9], ["q"], 1, []⟩,
    defaultTimeoutSeconds := 30,
    proxyValid := fun p => p ≠ "badproxy",
    buildReject := fun _ => none,
    newRequestErr := fun m _ => if m = "BADMETHOD" then some "net: invalid method" else none }

/-- The same environment with a client constructor that always fails. -/
def envBuildFail : Env :=
  { envOk with buildReject := fun _ => some "construction failed" }

/-- Concrete input resolving the catalogued identifier under session s1. -/
def inputIdOnly : RequestInput :=
  { sessionId := some "s1", tlsClientIdentifier := "chrome_103", customTlsClient := none,
    proxyUrl := none, followRedirects := true, timeoutSeconds := 0,
    insecureSkipVerify := false, requestMethod := "GET",
    requestUrl := "http://example.com", requestBody := none,
    headers := [], headerOrder := [] }

/-- Concrete invalid input carrying both an identifier and a custom
definition. -/
def inputBoth : RequestInput :=
  { inputIdOnly with customTlsClient := some sampleCustom }

/-- The empty process state: no sessions, no constructions, no uuids. -/
def emptyState : FactoryState :=
  ⟨[], 0, 0⟩

/-- Concrete live handle whose redirect flag is off and whose proxy is p1. -/
def redirectClient : Client :=
  ⟨5, zeroClientProfile, "p1", false, 30, false⟩

/-- The handle a first call on `inputIdOnly` constructs and stores. -/
def firstClient : Client :=
  ⟨0, sampleProfile, "", true, 30, false⟩

/-- A registry state in which session s1 already holds `firstClient`. -/
def stateWithS1 : FactoryState :=
  ⟨[("s1", some firstClient)], 1, 1⟩

/-- The identifier input with no session id supplied. -/
def inputNoSession : RequestInput :=
  { inputIdOnly with sessionId := none }

/-- The identifier input asking only for the redirect flag to be off. -/
def inputRedirectOff : RequestInput :=
  { inputIdOnly with followRedirects := false }

/-- Go-map lookup after a Go-map write: the written key reads back the new
value, every other key is untouched. -/
theorem lookupAssoc_insertAssoc {κ α : Type} [DecidableEq κ] (m : List (κ × α)) (k n : κ) (v : α) :
    lookupAssoc (insertAssoc m k v) n = if k = n then some v else lookupAssoc m n := by
  induction m with
  | nil => simp [insertAssoc, lookupAssoc]
  | cons p rest ih =>
    obtain ⟨k₀, v₀⟩ := p
    simp only [insertAssoc]
    by_cases h₀ : k₀ = k
    · subst h₀
      by_cases hn : k₀ = n <;> simp [lookupAssoc, hn]
    · by_cases hn : k₀ = n
      · subst hn
        have hkn : ¬k = k₀ := fun h => h₀ h.symm
        simp [lookupAssoc, h₀, hkn]
      · simp [lookupAssoc, h₀, hn, ih]

/-- A Go-map key is absent exactly when it is not among the stored keys. -/
theorem lookupAssoc_eq_none_iff {κ α : Type} [DecidableEq κ] (m : List (κ × α)) (k : κ) :
    lookupAssoc m k = none ↔ k ∉ m.map Prod.fst := by
  induction m with
  | nil => simp [lookupAssoc]
  | cons p rest ih =>
    obtain ⟨k₀, v₀⟩ := p
    by_cases h₀ : k₀ = k
    · subst h₀
      simp [lookupAssoc]
    · have h₀' : ¬k = k₀ := fun h => h₀ h.symm
      simp [lookupAssoc, h₀, h₀', ih]

/-- A Go-map write leaves the key list unchanged when the key was present
and appends it otherwise. -/
theorem keys_insertAssoc {κ α : Type} [DecidableEq κ] (m : List (κ × α)) (k : κ) (v : α) :
    (insertAssoc m k v).map Prod.fst =
      if k ∈ m.map Prod.fst then m.map Prod.fst else m.map Prod.fst ++ [k] := by
  induction m with
  | nil => simp [insertAssoc]
  | cons p rest ih =>
    obtain ⟨k₀, v₀⟩ := p
    by_cases h₀ : k₀ = k
    · subst h₀; simp [insertAssoc]
    · have h₀' : ¬k = k₀ := fun h => h₀ h.symm
      by_cases hm : k ∈ rest.map Prod.fst <;> simp [insertAssoc, h₀, h₀', hm, ih]

/-- Go-map writes keep the stored keys duplicate-free. -/
theorem nodup_keys_insertAssoc {κ α : Type} [DecidableEq κ] (m : List (κ × α)) (k : κ) (v : α)
    (h : (m.map Prod.fst).Nodup) : ((insertAssoc m k v).map Prod.fst).Nodup := by
  rw [keys_insertAssoc]
  by_cases hm : k ∈ m.map Prod.fst
  · simpa [hm] using h
  · simp [hm, List.nodup_append, h]

/-- A generated uuid is never the empty string. -/
theorem genUuid_ne_empty (n : Nat) : genUuid n ≠ "" := by
  intro h
  have h₂ := congrArg String.data h
  simp [genUuid] at h₂

/-- Distinct counter draws generate distinct uuids. -/
theorem genUuid_injective (a b : Nat) (h : genUuid a = genUuid b) : a = b := by
  have h₂ := congrArg (fun s => s.data.length) h
  simpa [genUuid] using h₂

/-- Rebuilding a priority frame field by field is the identity. -/
theorem priority_rebuild (p : Priority) :
    Priority.mk p.streamID
      (PriorityParam.mk p.priorityParam.streamDep p.priorityParam.exclusive
        p.priorityParam.weight) = p := by
  obtain ⟨sid, ⟨d, e, w⟩⟩ := p
  rfl

/-- The Go `append` accumulation loop copies the list verbatim. -/
theorem foldl_append_eq_append {α : Type} (l acc : List α) :
    l.foldl (fun a x => a ++ [x]) acc = acc ++ l := by
  induction l generalizing acc with
  | nil => simp
  | cons x xs ih => simp [ih]

/-- The Go `append` loop over priority frames rebuilds each frame field by
field, which copies the list verbatim. -/
theorem foldl_priority_rebuild (l acc : List Priority) :
    l.foldl
      (fun a priority =>
        a ++ [Priority.mk priority.streamID
          (PriorityParam.mk priority.priorityParam.streamDep
            priority.priorityParam.exclusive priority.priorityParam.weight)]) acc =
      acc ++ l := by
  induction l generalizing acc with
  | nil => simp
  | cons p ps ih => simp [ih, priority_rebuild]

/-- Two strings differ when their first characters differ, whatever is
appended to the first. -/
theorem append_ne_of_head_ne (a m b : String) (c₁ c₂ : Char) (hne : c₁ ≠ c₂)
    (ha : a.data.head? = some c₁) (hb : b.data.head? = some c₂) : a ++ m ≠ b := by
  intro h
  have h₂ := congrArg String.data h
  rw [String.data_append] at h₂
  have h₃ := congrArg List.head? h₂
  rw [hb] at h₃
  cases hd : a.data with
  | nil => rw [hd] at ha; exact Option.noConfusion ha
  | cons x xs =>
    rw [hd] at ha h₃
    simp only [List.cons_append, List.head?_cons, Option.some.injEq] at ha h₃
    exact hne (ha ▸ h₃)

/-- Case-by-case normal form of `handleModification`: either the proxy
check errors out before the redirect check is reached, or the result is
the handle with the proxy applied when requested and the redirect flag set
to the requested value. -/
theorem handleModification_eq (env : Env) (c : Client) (pu : Option String) (fr : Bool) :
    handleModification env c pu fr =
      (match pu with
       | some p =>
         if c.proxy ≠ p then
           if env.proxyValid p then
             if ({ c with proxy := p } : Client).followRedirect ≠ fr then
               Except.ok (({ c with proxy := p, followRedirect := fr } : Client), true)
             else Except.ok (({ c with proxy := p } : Client), true)
           else Except.error "failed to change proxy url of client"
         else
           if c.followRedirect ≠ fr then
             Except.ok (({ c with followRedirect := fr } : Client), true)
           else Except.ok (c, false)
       | none =>
         if c.followRedirect ≠ fr then
           Except.ok (({ c with followRedirect := fr } : Client), true)
         else Except.ok (c, false)) := by
  cases pu with
  | none =>
    unfold handleModification
    rfl
  | some p =>
    unfold handleModification
    dsimp only
    by_cases hp : c.proxy ≠ p
    · by_cases hv : env.proxyValid p
      · simp only [if_pos hp, if_pos hv]
      · simp only [if_pos hp, if_neg hv]
    · simp only [if_neg hp]

/-- A modification that reports no change returns the handle unchanged. -/
theorem handleModification_ok_false (env : Env) (c : Client) (pu : Option String)
    (fr : Bool) (c' : Client)
    (h : handleModification env c pu fr = Except.ok (c', false)) : c' = c := by
  rw [handleModification_eq] at h
  cases pu with
  | none =>
    dsimp only at h
    split_ifs at h <;>
      first
        | exact Except.noConfusion h
        | exact Bool.noConfusion (congrArg Prod.snd (Except.ok.inj h))
        | exact (congrArg Prod.fst (Except.ok.inj h)).symm
  | some p =>
    dsimp only at h
    split_ifs at h <;>
      first
        | exact Except.noConfusion h
        | exact Bool.noConfusion (congrArg Prod.snd (Except.ok.inj h))
        | exact (congrArg Prod.fst (Except.ok.inj h)).symm

/-- When no differing proxy is supplied, a modification only touches the
redirect flag: no proxy change is attempted, so it cannot fail. -/
theorem handleModification_same_proxy (env : Env) (c : Client) (pu : Option String)
    (fr : Bool) (hp : pu = none ∨ pu = some c.proxy) :
    handleModification env c pu fr =
      Except.ok
        (if c.followRedirect ≠ fr then (({ c with followRedirect := fr } : Client), true)
         else (c, false)) := by
  rcases hp with h | h <;> subst h <;> rw [handleModification_eq] <;> dsimp only
  · by_cases hfr : c.followRedirect ≠ fr
    · simp only [if_pos hfr]
    · simp only [if_neg hfr]
  · have hne : ¬(c.proxy ≠ c.proxy) := fun hx => hx rfl
    simp only [if_neg hne]
    by_cases hfr : c.followRedirect ≠ fr
    · simp only [if_pos hfr]
    · simp only [if_neg hfr]

/-- When any supplied proxy is either the current one or accepted by the
transport, a modification succeeds and sets the redirect flag to the
requested value, preserving identity and profile. -/
theorem handleModification_valid_proxy (env : Env) (c : Client) (pu : Option String)
    (fr : Bool) (hp : ∀ p, pu = some p → c.proxy = p ∨ env.proxyValid p = true) :
    ∃ c' ch, handleModification env c pu fr = Except.ok (c', ch) ∧
      c'.followRedirect = fr ∧ c'.clientId = c.clientId ∧ c'.profile = c.profile ∧
      (c.followRedirect ≠ fr → ch = true) := by
  cases pu with
  | none =>
    rw [handleModification_eq]
    dsimp only
    by_cases hfr : c.followRedirect ≠ fr
    · refine ⟨{ c with followRedirect := fr }, true, ?_, rfl, rfl, rfl, fun _ => rfl⟩
      rw [if_pos hfr]
    · refine ⟨c, false, ?_, ?_, rfl, rfl, fun h => absurd h hfr⟩
      · rw [if_neg hfr]
      · exact not_not.mp hfr
  | some p =>
    rw [handleModification_eq]
    dsimp only
    by_cases hne : c.proxy ≠ p
    · have hvalid : env.proxyValid p = true := by
        rcases hp p rfl with h | h
        · exact absurd h hne
        · exact h
      by_cases hfr : ({ c with proxy := p } : Client).followRedirect ≠ fr
      · refine ⟨{ c with proxy := p, followRedirect := fr }, true, ?_, rfl, rfl, rfl, fun _ => rfl⟩
        rw [if_pos hne, if_pos hvalid, if_pos hfr]
      · refine ⟨{ c with proxy := p }, true, ?_, ?_, rfl, rfl, fun _ => rfl⟩
        · rw [if_pos hne, if_pos hvalid, if_neg hfr]
        · exact not_not.mp hfr
    · by_cases hfr : c.followRedirect ≠ fr
      · refine ⟨{ c with followRedirect := fr }, true, ?_, rfl, rfl, rfl, fun _ => rfl⟩
        rw [if_neg hne, if_pos hfr]
      · refine ⟨c, false, ?_, ?_, rfl, rfl, fun h => absurd h hfr⟩
        · rw [if_neg hne, if_neg hfr]
        · exact not_not.mp hfr

/-- On a session id with a live registry entry, `getTlsClient` is exactly
the modification path: no profile resolution and no construction happen. -/
theorem getTlsClient_existing (env : Env) (i : RequestInput) (s : String)
    (st : FactoryState) (c : Client) (h : lookupAssoc st.clients s = some (some c)) :
    getTlsClient env i s st =
      match handleModification env c i.proxyUrl i.followRedirects with
      | Except.error e => ((none, some ("failed to modify existing client: " ++ e)), st)
      | Except.ok (modifiedClient, changed) =>
        ((some modifiedClient, none),
          if changed then
            { st with clients := insertAssoc st.clients s (some modifiedClient) }
          else st) := by
  unfold getTlsClient
  rw [h]

/-- `getTlsClient` never touches the uuid counter. -/
theorem getTlsClient_uuidCounter (env : Env) (i : RequestInput) (s : String)
    (st : FactoryState) : ((getTlsClient env i s st).2).uuidCounter = st.uuidCounter := by
  unfold getTlsClient
  dsimp only
  split
  · split
    · rfl
    · dsimp only
      split <;> rfl
  · rfl
  · split
    · rfl
    · rfl

/-- The returned session id is the supplied one when present and
non-empty, and the freshly drawn uuid otherwise — on every path. -/
theorem GetTlsClientFromInput_sessionId (env : Env) (i : RequestInput) (st : FactoryState) :
    (GetTlsClientFromInput env i st).1.sessionId =
      match i.sessionId with
      | some s => if s ≠ "" then s else genUuid st.uuidCounter
      | none => genUuid st.uuidCounter := by
  unfold GetTlsClientFromInput
  dsimp only
  split
  · rfl
  · split
    · rfl
    · split <;> rfl

/-- Every call draws exactly one uuid: the counter advances by one on
every path, success or error. -/
theorem GetTlsClientFromInput_uuidCounter (env : Env) (i : RequestInput) (st : FactoryState) :
    (GetTlsClientFromInput env i st).2.uuidCounter = st.uuidCounter + 1 := by
  unfold GetTlsClientFromInput
  dsimp only
  split
  · rfl
  · split
    · rfl
    · split
      · exact getTlsClient_uuidCounter env i _ _
      · exact getTlsClient_uuidCounter env i _ _

/-- Whenever `getTlsClient` hands back a client, the registry afterwards
maps the session id to exactly that handle. -/
theorem getTlsClient_client_stored (env : Env) (i : RequestInput) (s : String)
    (st : FactoryState) (c : Client)
    (h : (getTlsClient env i s st).1.1 = some c) :
    lookupAssoc ((getTlsClient env i s st).2.clients) s = some (some c) := by
  unfold getTlsClient at h ⊢
  dsimp only at h ⊢
  cases hl : lookupAssoc st.clients s with
  | some oc =>
    rw [hl] at h
    cases oc with
    | some c₀ =>
      dsimp only at h ⊢
      cases hm : handleModification env c₀ i.proxyUrl i.followRedirects with
      | error e =>
        rw [hm] at h
        exact Option.noConfusion h
      | ok pr =>
        obtain ⟨mc, ch⟩ := pr
        rw [hm] at h
        dsimp only at h ⊢
        have hmc : mc = c := Option.some.inj h
        subst hmc
        by_cases hch : ch = true
        · rw [if_pos hch]
          dsimp only
          rw [lookupAssoc_insertAssoc, if_pos rfl]
        · have hchf : ch = false := by
            cases ch
            · rfl
            · exact absurd rfl hch
          subst hchf
          rw [if_neg hch]
          have hmc₀ := handleModification_ok_false env c₀ i.proxyUrl i.followRedirects mc hm
          rw [hl, hmc₀]
    | none =>
      dsimp only at h
      exact Option.noConfusion h
  | none =>
    rw [hl] at h
    dsimp only at h ⊢
    cases hcu : i.customTlsClient with
    | some custom =>
      rw [hcu] at h
      dsimp only at h ⊢
      cases hg : getCustomTlsClientProfile env custom with
      | error e =>
        rw [hg] at h
        dsimp only at h
        exact Option.noConfusion h
      | ok tup =>
        obtain ⟨hello, hs2, hso, hpho, hcf, hpf⟩ := tup
        rw [hg] at h
        dsimp only at h ⊢
        rw [lookupAssoc_insertAssoc, if_pos rfl, h]
    | none =>
      rw [hcu] at h
      dsimp only at h ⊢
      rw [lookupAssoc_insertAssoc, if_pos rfl, h]

/-- On a valid input carrying a non-empty session id, the entry point is
exactly its `getTlsClient` delegation with the supplied id. -/
theorem GetTlsClientFromInput_valid (env : Env) (i : RequestInput) (st : FactoryState)
    (s : String) (h₁ : i.sessionId = some s) (h₂ : s ≠ "")
    (ha : ¬(i.tlsClientIdentifier ≠ "" ∧ i.customTlsClient ≠ none))
    (hb : ¬(i.tlsClientIdentifier = "" ∧ i.customTlsClient = none)) :
    GetTlsClientFromInput env i st =
      (match (getTlsClient env i s { st with uuidCounter := st.uuidCounter + 1 }).1.2 with
       | some e =>
         ({ client := none, sessionId := s,
            err := some (NewTLSClientError ("failed to build client out of request input: " ++ e)) },
          (getTlsClient env i s { st with uuidCounter := st.uuidCounter + 1 }).2)
       | none =>
         ({ client := (getTlsClient env i s { st with uuidCounter := st.uuidCounter + 1 }).1.1,
            sessionId := s, err := none },
          (getTlsClient env i s { st with uuidCounter := st.uuidCounter + 1 }).2)) := by
  unfold GetTlsClientFromInput
  rw [h₁]
  dsimp only
  rw [if_pos h₂, if_neg ha, if_neg hb]

/-- Lookup after the cookie fold: the last cookie of a given name wins,
and names untouched by the fold fall through to the accumulator. -/
theorem lookupAssoc_cookieFold (cookies : List Cookie) (acc : List (String × String))
    (n : String) :
    lookupAssoc (cookies.foldl (fun ret c => insertAssoc ret c.name c.str) acc) n =
      match cookies.reverse.find? (fun c => decide (c.name = n)) with
      | some c => some c.str
      | none => lookupAssoc acc n := by
  induction cookies generalizing acc with
  | nil => rfl
  | cons c cs ih =>
    simp only [List.foldl_cons, List.reverse_cons]
    rw [ih, List.find?_append]
    cases hf : cs.reverse.find? (fun c => decide (c.name = n)) with
    | some c' => rfl
    | none =>
      dsimp only [Option.or]
      rw [lookupAssoc_insertAssoc]
      by_cases h : c.name = n
      · simp [List.find?, h]
      · simp [List.find?, h]

/-- The cookie fold keeps the stored cookie names duplicate-free. -/
theorem nodup_keys_cookieFold (cookies : List Cookie) (acc : List (String × String))
    (h : (acc.map Prod.fst).Nodup) :
    ((cookies.foldl (fun ret c => insertAssoc ret c.name c.str) acc).map Prod.fst).Nodup := by
  induction cookies generalizing acc with
  | nil => exact h
  | cons c cs ih =>
    exact ih _ (nodup_keys_insertAssoc acc c.name c.str h)

/-- C1: the claim says a failed client construction returns an error and
leaves the session registry without an entry for the session id. The code
instead writes `clients[sessionId] = tlsClient` before inspecting the
construction error, so at this concrete input the call reports the error
while the registry has gained an entry (holding the nil handle) for s1:
the claim is right about the intent, the code inserts on failure. -/
theorem c1_failed_construction_still_inserts_entry :
    (GetTlsClientFromInput envBuildFail inputIdOnly emptyState).1.err =
      some (NewTLSClientError
        ("failed to build client out of request input: construction failed")) ∧
    (GetTlsClientFromInput envBuildFail inputIdOnly emptyState).1.client = none ∧
    lookupAssoc (GetTlsClientFromInput envBuildFail inputIdOnly emptyState).2.clients "s1" =
      some none :=
  ⟨rfl, rfl, rfl⟩

/-- C2 counterexample: a handle whose redirect flag (off) differs from the
requested one (on), together with a supplied differing proxy the transport
rejects. The claim says the flag is flipped regardless of the proxy
outcome; the code returns the proxy error before reaching the redirect
check, so no handle with a flipped flag is produced at all. -/
theorem c2_counterexample_proxy_failure_skips_flip :
    redirectClient.followRedirect ≠ true ∧
    handleModification envOk redirectClient (some "badproxy") true =
      Except.error "failed to change proxy url of client" :=
  ⟨by decide, rfl⟩

/-- C2 amended: when every supplied proxy is the current one or is
accepted by the transport, Modification succeeds, sets a differing
redirect flag to the requested value (marking the entry changed), and the
flip itself never fails; when a supplied differing proxy is rejected, the
whole Modification errors out without flipping the flag. -/
theorem c2_amended_flip_unless_proxy_fails (env : Env) (c : Client) (pu : Option String)
    (fr : Bool) (hp : ∀ p, pu = some p → c.proxy = p ∨ env.proxyValid p = true) :
    ∃ c' ch, handleModification env c pu fr = Except.ok (c', ch) ∧
      c'.followRedirect = fr ∧ (c.followRedirect ≠ fr → ch = true) := by
  obtain ⟨c', ch, h₁, h₂, _, _, h₅⟩ := handleModification_valid_proxy env c pu fr hp
  exact ⟨c', ch, h₁, h₂, h₅⟩

/-- C2 amended, witnessed at a concrete handle whose supplied proxy equals
its current one and whose redirect flag differs. -/
theorem c2_amended_flip_unless_proxy_fails_witness :
    ∃ c' ch, handleModification envOk redirectClient (some "p1") true = Except.ok (c', ch) ∧
      c'.followRedirect = true ∧ (redirectClient.followRedirect ≠ true → ch = true) :=
  c2_amended_flip_unless_proxy_fails envOk redirectClient (some "p1") true
    (fun _ hp => Or.inl (Option.some.inj hp))

/-- C4: an input with both the identifier and the custom definition set,
or with neither, yields the corresponding validation error, no client,
and an untouched registry — the check precedes any registry access. -/
theorem c4_validation_error_before_registry (env : Env) (i : RequestInput) (st : FactoryState)
    (h : (i.tlsClientIdentifier ≠ "" ∧ i.customTlsClient ≠ none) ∨
         (i.tlsClientIdentifier = "" ∧ i.customTlsClient = none)) :
    (GetTlsClientFromInput env i st).1.client = none ∧
    ((GetTlsClientFromInput env i st).1.err = some (NewTLSClientError bothProvidedMsg) ∨
     (GetTlsClientFromInput env i st).1.err = some (NewTLSClientError neitherProvidedMsg)) ∧
    (GetTlsClientFromInput env i st).2.clients = st.clients ∧
    (GetTlsClientFromInput env i st).2.nextClientId = st.nextClientId := by
  unfold GetTlsClientFromInput
  dsimp only
  rcases h with h | h
  · rw [if_pos h]
    exact ⟨rfl, Or.inl rfl, rfl, rfl⟩
  · have h' : ¬(i.tlsClientIdentifier ≠ "" ∧ i.customTlsClient ≠ none) := by
      intro hx
      exact hx.1 h.1
    rw [if_neg h', if_pos h]
    exact ⟨rfl, Or.inr rfl, rfl, rfl⟩

/-- C4 witnessed at the concrete both-set input. -/
theorem c4_validation_error_before_registry_witness :
    (GetTlsClientFromInput envOk inputBoth emptyState).1.client = none ∧
    ((GetTlsClientFromInput envOk inputBoth emptyState).1.err =
        some (NewTLSClientError bothProvidedMsg) ∨
     (GetTlsClientFromInput envOk inputBoth emptyState).1.err =
        some (NewTLSClientError neitherProvidedMsg)) ∧
    (GetTlsClientFromInput envOk inputBoth emptyState).2.clients = emptyState.clients ∧
    (GetTlsClientFromInput envOk inputBoth emptyState).2.nextClientId =
      emptyState.nextClientId :=
  c4_validation_error_before_registry envOk inputBoth emptyState (Or.inl (by decide))

/-- C5: whenever the JA3 string parses, the resolved custom profile
carries the settings order, pseudo-header order and priority-frame
sequences exactly as supplied — nothing reordered, deduplicated or
sorted — under the synthetic Custom hello id holding the parsed factory. -/
theorem c5_custom_profile_preserves_order (env : Env) (custom : CustomTlsClient) (f : Nat)
    (h : env.ja3Parse custom.ja3String = Except.ok f) :
    ∃ settings, getCustomTlsClientProfile env custom =
      Except.ok (⟨"Custom", "1", none, some f⟩, settings, custom.h2SettingsOrder,
        custom.pseudoHeaderOrder, custom.connectionFlow, custom.priorityFrames) := by
  refine ⟨custom.h2Settings.foldl (fun m kv => insertAssoc m kv.1 kv.2) [], ?_⟩
  unfold getCustomTlsClientProfile
  rw [h]
  dsimp only
  rw [foldl_append_eq_append, foldl_priority_rebuild, List.nil_append, List.nil_append]

/-- C5 witnessed at the concrete custom definition with settings order
[2,4,1]. -/
theorem c5_custom_profile_preserves_order_witness :
    ∃ settings, getCustomTlsClientProfile envOk sampleCustom =
      Except.ok (⟨"Custom", "1", none, some 7⟩, settings, sampleCustom.h2SettingsOrder,
        sampleCustom.pseudoHeaderOrder, sampleCustom.connectionFlow,
        sampleCustom.priorityFrames) :=
  c5_custom_profile_preserves_order envOk sampleCustom 7 rfl

/-- C10: when draining the response body fails, BuildResponse returns the
error together with the zero-valued response: empty session id, status 0,
empty body, no headers, no cookies. -/
theorem c10_drain_failure_returns_zero_response (sessionId : String) (resp : WireResponse)
    (cookies : List Cookie) (e : String) (h : resp.bodyRead = Except.error e) :
    BuildResponse sessionId resp cookies = (zeroResponse, some (NewTLSClientError e)) ∧
    zeroResponse =
      { sessionId := "", status := 0, body := "", headers := [], cookies := [] } := by
  unfold BuildResponse
  rw [h]
  exact ⟨rfl, rfl⟩

/-- C10 witnessed at a concrete failing body read. -/
theorem c10_drain_failure_returns_zero_response_witness :
    BuildResponse "sid" ⟨200, [("H", ["v"])], Except.error "readerr"⟩ [] =
      (zeroResponse, some (NewTLSClientError "readerr")) ∧
    zeroResponse =
      { sessionId := "", status := 0, body := "", headers := [], cookies := [] } :=
  c10_drain_failure_returns_zero_response "sid" ⟨200, [("H", ["v"])], Except.error "readerr"⟩
    [] "readerr" rfl

/-- The wrapped request-construction error can never collide with the
missing-method-or-url validation message. -/
theorem createMsg_ne_noMethodUrlMsg (m : String) :
    ("failed to create request object: " ++ m) ≠ noMethodUrlMsg :=
  append_ne_of_head_ne _ m _ 'f' 'n' (by decide) rfl rfl

/-- The wrapped request-construction error can never collide with the
missing-content-type validation message. -/
theorem createMsg_ne_noContentTypeMsg (m : String) :
    ("failed to create request object: " ++ m) ≠ noContentTypeMsg :=
  append_ne_of_head_ne _ m _ 'f' 'i' (by decide) rfl rfl

/-- The request-construction tail never produces either of BuildRequest's
two validation errors. -/
theorem mkWireRequest_not_validation (env : Env) (i : RequestInput) (body : Option String) :
    mkWireRequest env i body ≠ Except.error (NewTLSClientError noMethodUrlMsg) ∧
    mkWireRequest env i body ≠ Except.error (NewTLSClientError noContentTypeMsg) := by
  unfold mkWireRequest
  cases hn : env.newRequestErr i.requestMethod i.requestUrl with
  | some e =>
    constructor <;> intro h
    · exact createMsg_ne_noMethodUrlMsg e (congrArg TLSClientError.msg (Except.error.inj h))
    · exact createMsg_ne_noContentTypeMsg e (congrArg TLSClientError.msg (Except.error.inj h))
  | none =>
    constructor <;> intro h <;> exact Except.noConfusion h

/-- C6: the cookie map holds exactly one entry per distinct cookie name
(duplicate-free keys, a key present exactly for the names that occur),
and the value under each name is the serialized string of the last cookie
of that name in the list — later cookies win collisions. -/
theorem c6_cookie_map_one_entry_per_name_last_wins (cookies : List Cookie) :
    ((cookiesToMap cookies).map Prod.fst).Nodup ∧
    (∀ n, (lookupAssoc (cookiesToMap cookies) n).isSome = true ↔
      n ∈ cookies.map Cookie.name) ∧
    (∀ n, lookupAssoc (cookiesToMap cookies) n =
      (cookies.reverse.find? (fun c => decide (c.name = n))).map Cookie.str) := by
  have hl : ∀ n, lookupAssoc (cookiesToMap cookies) n =
      (cookies.reverse.find? (fun c => decide (c.name = n))).map Cookie.str := by
    intro n
    rw [cookiesToMap, lookupAssoc_cookieFold]
    cases hf : cookies.reverse.find? (fun c => decide (c.name = n)) with
    | some c => rfl
    | none => rfl
  refine ⟨nodup_keys_cookieFold cookies [] (by simp), ?_, hl⟩
  intro n
  rw [hl n]
  constructor
  · intro hs
    cases hf : cookies.reverse.find? (fun c => decide (c.name = n)) with
    | none =>
      rw [hf] at hs
      exact absurd hs (by simp)
    | some c =>
      have hmem := List.mem_of_find?_eq_some hf
      have hdec := List.find?_some hf
      have hname : c.name = n := of_decide_eq_true hdec
      exact List.mem_map.mpr ⟨c, List.mem_reverse.mp hmem, hname⟩
  · intro hmem
    obtain ⟨c, hc, hname⟩ := List.mem_map.mp hmem
    have hex : ∃ x ∈ cookies.reverse, (fun c => decide (c.name = n)) x = true :=
      ⟨c, List.mem_reverse.mpr hc, decide_eq_true hname⟩
    have hs := List.find?_isSome.mpr hex
    cases hf : cookies.reverse.find? (fun c => decide (c.name = n)) with
    | none =>
      rw [hf] at hs
      exact absurd hs (by simp)
    | some c' => simp [hf]

/-- C7: BuildRequest raises one of its two validation errors exactly when
the method or url is empty, or a non-empty body comes without either of
the exact header keys content-type / Content-Type; in every other case no
validation error is raised (the checks precede request construction, whose
failure carries a different, non-validation message). -/
theorem c7_build_request_validation_iff (env : Env) (i : RequestInput) :
    (BuildRequest env i = Except.error (NewTLSClientError noMethodUrlMsg) ∨
     BuildRequest env i = Except.error (NewTLSClientError noContentTypeMsg)) ↔
    (i.requestMethod = "" ∨ i.requestUrl = "" ∨
     (∃ b, i.requestBody = some b ∧ b ≠ "" ∧
       lookupAssoc i.headers "content-type" = none ∧
       lookupAssoc i.headers "Content-Type" = none)) := by
  unfold BuildRequest
  by_cases hmu : i.requestMethod = "" ∨ i.requestUrl = ""
  · rw [if_pos hmu]
    constructor
    · intro _
      rcases hmu with h | h
      · exact Or.inl h
      · exact Or.inr (Or.inl h)
    · intro _
      exact Or.inl rfl
  · rw [if_neg hmu]
    push_neg at hmu
    cases hb : i.requestBody with
    | none =>
      dsimp only
      constructor
      · intro h
        rcases h with h | h
        · exact absurd h (mkWireRequest_not_validation env i none).1
        · exact absurd h (mkWireRequest_not_validation env i none).2
      · intro h
        rcases h with h | h | ⟨b, hb', _⟩
        · exact absurd h hmu.1
        · exact absurd h hmu.2
        · exact Option.noConfusion hb'
    | some b =>
      dsimp only
      by_cases hbe : b ≠ ""
      · rw [if_pos hbe]
        by_cases hct : lookupAssoc i.headers "content-type" = none ∧
            lookupAssoc i.headers "Content-Type" = none
        · rw [if_pos hct]
          constructor
          · intro _
            exact Or.inr (Or.inr ⟨b, rfl, hbe, hct.1, hct.2⟩)
          · intro _
            exact Or.inr rfl
        · rw [if_neg hct]
          constructor
          · intro h
            rcases h with h | h
            · exact absurd h (mkWireRequest_not_validation env i (some b)).1
            · exact absurd h (mkWireRequest_not_validation env i (some b)).2
          · intro h
            rcases h with h | h | ⟨b', hb', _, hc1, hc2⟩
            · exact absurd h hmu.1
            · exact absurd h hmu.2
            · exact absurd ⟨hc1, hc2⟩ hct
      · rw [if_neg hbe]
        push_neg at hbe
        constructor
        · intro h
          rcases h with h | h
          · exact absurd h (mkWireRequest_not_validation env i none).1
          · exact absurd h (mkWireRequest_not_validation env i none).2
        · intro h
          rcases h with h | h | ⟨b', hb', hbe', _⟩
          · exact absurd h hmu.1
          · exact absurd h hmu.2
          · exact absurd (by rw [← Option.some.inj hb']; exact hbe) hbe'

/-- C8: a call on an existing session that at most flips the redirect flag
(no proxy supplied, or the supplied proxy equals the current one) succeeds
and returns a handle with the same object identity, the same proxy and the
same profile — the profile is not re-resolved and no client is
constructed (the construction counter is untouched). -/
theorem c8_redirect_only_change_keeps_proxy_and_profile (env : Env) (i : RequestInput)
    (st : FactoryState) (s : String) (c : Client)
    (h₀ : lookupAssoc st.clients s = some (some c))
    (h₁ : i.sessionId = some s) (h₂ : s ≠ "")
    (ha : ¬(i.tlsClientIdentifier ≠ "" ∧ i.customTlsClient ≠ none))
    (hb : ¬(i.tlsClientIdentifier = "" ∧ i.customTlsClient = none))
    (hp : i.proxyUrl = none ∨ i.proxyUrl = some c.proxy) :
    (GetTlsClientFromInput env i st).1.err = none ∧
    (GetTlsClientFromInput env i st).1.sessionId = s ∧
    (∃ c', (GetTlsClientFromInput env i st).1.client = some c' ∧
      c'.proxy = c.proxy ∧ c'.profile = c.profile ∧ c'.clientId = c.clientId ∧
      c'.followRedirect = i.followRedirects) ∧
    (GetTlsClientFromInput env i st).2.nextClientId = st.nextClientId := by
  rw [GetTlsClientFromInput_valid env i st s h₁ h₂ ha hb]
  have h₀' : lookupAssoc
      ({ st with uuidCounter := st.uuidCounter + 1 } : FactoryState).clients s =
      some (some c) := h₀
  rw [getTlsClient_existing env i s _ c h₀',
    handleModification_same_proxy env c i.proxyUrl i.followRedirects hp]
  by_cases hfr : c.followRedirect ≠ i.followRedirects
  · rw [if_pos hfr]
    exact ⟨rfl, rfl, ⟨_, rfl, rfl, rfl, rfl, rfl⟩, rfl⟩
  · rw [if_neg hfr]
    exact ⟨rfl, rfl, ⟨c, rfl, rfl, rfl, rfl, not_not.mp hfr⟩, rfl⟩

/-- C8 witnessed on a registry already holding the s1 handle, asked only
to turn the redirect flag off. -/
theorem c8_redirect_only_change_keeps_proxy_and_profile_witness :
    (GetTlsClientFromInput envOk inputRedirectOff stateWithS1).1.err = none ∧
    (GetTlsClientFromInput envOk inputRedirectOff stateWithS1).1.sessionId = "s1" ∧
    (∃ c', (GetTlsClientFromInput envOk inputRedirectOff stateWithS1).1.client = some c' ∧
      c'.proxy = firstClient.proxy ∧ c'.profile = firstClient.profile ∧
      c'.clientId = firstClient.clientId ∧
      c'.followRedirect = inputRedirectOff.followRedirects) ∧
    (GetTlsClientFromInput envOk inputRedirectOff stateWithS1).2.nextClientId =
      stateWithS1.nextClientId :=
  c8_redirect_only_change_keeps_proxy_and_profile envOk inputRedirectOff stateWithS1
    "s1" firstClient rfl rfl (by decide) (by decide) (by decide) (Or.inl rfl)

/-- C3: after a first call on a session id returned a handle, a second
call with the same non-empty session id and a valid identifier/custom
split (and any proxy that is current or accepted) returns a handle with
the identical object identity, succeeds, and performs no construction:
the construction counter does not move. -/
theorem c3_same_session_returns_identical_handle (env₁ env₂ : Env) (i₁ i₂ : RequestInput)
    (st : FactoryState) (s : String) (c₁ : Client)
    (h₁ : i₁.sessionId = some s) (h₂ : i₂.sessionId = some s) (hs : s ≠ "")
    (ha : ¬(i₂.tlsClientIdentifier ≠ "" ∧ i₂.customTlsClient ≠ none))
    (hb : ¬(i₂.tlsClientIdentifier = "" ∧ i₂.customTlsClient = none))
    (hc : (GetTlsClientFromInput env₁ i₁ st).1.client = some c₁)
    (hp : ∀ p, i₂.proxyUrl = some p → c₁.proxy = p ∨ env₂.proxyValid p = true) :
    ∃ c₂,
      (GetTlsClientFromInput env₂ i₂ (GetTlsClientFromInput env₁ i₁ st).2).1.client =
        some c₂ ∧
      (GetTlsClientFromInput env₂ i₂ (GetTlsClientFromInput env₁ i₁ st).2).1.err = none ∧
      c₂.clientId = c₁.clientId ∧
      (GetTlsClientFromInput env₂ i₂ (GetTlsClientFromInput env₁ i₁ st).2).1.sessionId = s ∧
      (GetTlsClientFromInput env₂ i₂ (GetTlsClientFromInput env₁ i₁ st).2).2.nextClientId =
        (GetTlsClientFromInput env₁ i₁ st).2.nextClientId := by
  have hstore : lookupAssoc (GetTlsClientFromInput env₁ i₁ st).2.clients s =
      some (some c₁) := by
    by_cases ha₁ : i₁.tlsClientIdentifier ≠ "" ∧ i₁.customTlsClient ≠ none
    · unfold GetTlsClientFromInput at hc
      dsimp only at hc
      rw [if_pos ha₁] at hc
      exact Option.noConfusion hc
    · by_cases hb₁ : i₁.tlsClientIdentifier = "" ∧ i₁.customTlsClient = none
      · unfold GetTlsClientFromInput at hc
        dsimp only at hc
        rw [if_neg ha₁, if_pos hb₁] at hc
        exact Option.noConfusion hc
      · rw [GetTlsClientFromInput_valid env₁ i₁ st s h₁ hs ha₁ hb₁] at hc ⊢
        cases hstep : (getTlsClient env₁ i₁ s
            { st with uuidCounter := st.uuidCounter + 1 }).1.2 with
        | some e =>
          rw [hstep] at hc
          exact Option.noConfusion hc
        | none =>
          rw [hstep] at hc
          dsimp only at hc ⊢
          exact getTlsClient_client_stored env₁ i₁ s _ c₁ hc
  rw [GetTlsClientFromInput_valid env₂ i₂ _ s h₂ hs ha hb]
  have hstore' : lookupAssoc
      ({ (GetTlsClientFromInput env₁ i₁ st).2 with
         uuidCounter := (GetTlsClientFromInput env₁ i₁ st).2.uuidCounter + 1 } :
        FactoryState).clients s = some (some c₁) := hstore
  rw [getTlsClient_existing env₂ i₂ s _ c₁ hstore']
  obtain ⟨c₂, ch, hm, hfr₂, hid, hprof, hch⟩ :=
    handleModification_valid_proxy env₂ c₁ i₂.proxyUrl i₂.followRedirects hp
  rw [hm]
  cases ch with
  | false => exact ⟨c₂, rfl, rfl, hid, rfl, rfl⟩
  | true => exact ⟨c₂, rfl, rfl, hid, rfl, rfl⟩

/-- C3 witnessed by two concrete identifier calls on session s1 from the
empty state. -/
theorem c3_same_session_returns_identical_handle_witness :
    ∃ c₂,
      (GetTlsClientFromInput envOk inputIdOnly
        (GetTlsClientFromInput envOk inputIdOnly emptyState).2).1.client = some c₂ ∧
      (GetTlsClientFromInput envOk inputIdOnly
        (GetTlsClientFromInput envOk inputIdOnly emptyState).2).1.err = none ∧
      c₂.clientId = firstClient.clientId ∧
      (GetTlsClientFromInput envOk inputIdOnly
        (GetTlsClientFromInput envOk inputIdOnly emptyState).2).1.sessionId = "s1" ∧
      (GetTlsClientFromInput envOk inputIdOnly
        (GetTlsClientFromInput envOk inputIdOnly emptyState).2).2.nextClientId =
        (GetTlsClientFromInput envOk inputIdOnly emptyState).2.nextClientId :=
  c3_same_session_returns_identical_handle envOk envOk inputIdOnly inputIdOnly emptyState
    "s1" firstClient rfl rfl (by decide) (by decide) (by decide) rfl
    (fun _ hp => Option.noConfusion hp)

/-- C9: the returned session id is the supplied one whenever it is present
and non-empty; when it is absent or empty a fresh uuid is returned, which
is never the empty string and differs between two successive generating
calls — on every return, success or error. -/
theorem c9_session_id_supplied_or_fresh (env₁ : Env) (i₁ : RequestInput) (st₁ : FactoryState)
    (s : String) (h₁ : i₁.sessionId = some s) (hs : s ≠ "")
    (env₂ env₃ : Env) (i₂ i₃ : RequestInput) (st₂ : FactoryState)
    (h₂ : i₂.sessionId = none ∨ i₂.sessionId = some "")
    (h₃ : i₃.sessionId = none ∨ i₃.sessionId = some "") :
    (GetTlsClientFromInput env₁ i₁ st₁).1.sessionId = s ∧
    (GetTlsClientFromInput env₂ i₂ st₂).1.sessionId = genUuid st₂.uuidCounter ∧
    (GetTlsClientFromInput env₂ i₂ st₂).1.sessionId ≠ "" ∧
    (GetTlsClientFromInput env₃ i₃
      (GetTlsClientFromInput env₂ i₂ st₂).2).1.sessionId ≠ "" ∧
    (GetTlsClientFromInput env₂ i₂ st₂).1.sessionId ≠
      (GetTlsClientFromInput env₃ i₃ (GetTlsClientFromInput env₂ i₂ st₂).2).1.sessionId := by
  have e₁ : (GetTlsClientFromInput env₁ i₁ st₁).1.sessionId = s := by
    rw [GetTlsClientFromInput_sessionId, h₁]
    dsimp only
    rw [if_pos hs]
  have gen : ∀ (env : Env) (i : RequestInput) (st : FactoryState),
      (i.sessionId = none ∨ i.sessionId = some "") →
      (GetTlsClientFromInput env i st).1.sessionId = genUuid st.uuidCounter := by
    intro env i st h
    rw [GetTlsClientFromInput_sessionId]
    rcases h with h | h <;> rw [h]
    have hne : ¬("" : String) ≠ "" := fun hx => hx rfl
    dsimp only
    rw [if_neg hne]
  have e₂ := gen env₂ i₂ st₂ h₂
  have e₃ := gen env₃ i₃ (GetTlsClientFromInput env₂ i₂ st₂).2 h₃
  have ecnt := GetTlsClientFromInput_uuidCounter env₂ i₂ st₂
  refine ⟨e₁, e₂, ?_, ?_, ?_⟩
  · rw [e₂]
    exact genUuid_ne_empty _
  · rw [e₃]
    exact genUuid_ne_empty _
  · rw [e₂, e₃, ecnt]
    intro hx
    have := genUuid_injective _ _ hx
    omega

/-- C9 witnessed by a call supplying s1 and two successive generating
calls from the empty state. -/
theorem c9_session_id_supplied_or_fresh_witness :
    (GetTlsClientFromInput envOk inputIdOnly emptyState).1.sessionId = "s1" ∧
    (GetTlsClientFromInput envOk inputNoSession emptyState).1.sessionId =
      genUuid emptyState.uuidCounter ∧
    (GetTlsClientFromInput envOk inputNoSession emptyState).1.sessionId ≠ "" ∧
    (GetTlsClientFromInput envOk inputNoSession
      (GetTlsClientFromInput envOk inputNoSession emptyState).2).1.sessionId ≠ "" ∧
    (GetTlsClientFromInput envOk inputNoSession emptyState).1.sessionId ≠
      (GetTlsClientFromInput envOk inputNoSession
        (GetTlsClientFromInput envOk inputNoSession emptyState).2).1.sessionId :=
  c9_session_id_supplied_or_fresh envOk inputIdOnly emptyState "s1" rfl (by decide)
    envOk envOk inputNoSession inputNoSession emptyState (Or.inl rfl) (Or.inl rfl)

end TlsClientCffi
